import Mathlib

/-!
Shallow embedding of the sync/dedup core of `vibe_gh_sync.py` (the
GitHub-issues-to-kanban-board synchroniser), together with theorems about
its duplicate detector, its error handling and its polling loop.

Python strings are modelled as `List Char`; Python sets of strings as
lists with insert-if-absent semantics (membership is all that the code
uses).  External effects (the `gh` subprocess, the board's HTTP API, the
shutdown signal) are modelled as explicit inputs: result values for the
fetch/create calls and a Bool-valued oracle, indexed by read count, for
the process-wide shutdown flag.
-/

namespace VibeSync

/-- ASCII whitespace as stripped by Python's `str.strip()` (and matched by
the regex class backslash-s).  Python additionally treats some Unicode
code points as whitespace; the tasks and issues handled here are modelled
over this ASCII core. -/
def isPySpace (c : Char) : Bool :=
  c = ' ' || c = '\t' || c = '\n' || c = '\r' || c = '\x0b' || c = '\x0c'

/-- Python `s.strip()`: drop leading and trailing whitespace. -/
def pyStrip (l : List Char) : List Char :=
  ((l.dropWhile isPySpace).reverse.dropWhile isPySpace).reverse

/-- Python `hay.find(needle)`: index of the first occurrence of `needle`
in `hay`, or `none` (Python: `-1`) when absent. -/
def findSub : List Char → List Char → Option Nat
  | needle, [] => if needle.isPrefixOf ([] : List Char) then some 0 else none
  | needle, c :: t =>
    if needle.isPrefixOf (c :: t) then some 0
    else (findSub needle t).map (· + 1)

/-- The fixed marker string `"Original Issue: "` used by the sync to embed
an issue's URL in a task's content (vibe_gh_sync.py line 531). -/
def marker : List Char := "Original Issue: ".data

/-- Marker-based URL extraction from a task's content, mirroring
vibe_gh_sync.py lines 531-540: locate the marker, take the text up to the
next line break (or the end of the content), strip it; the empty result is
discarded. -/
def extractMarkerUrl (content : List Char) : Option (List Char) :=
  match findSub marker content with
  | none => none
  | some i =>
    let rest := content.drop (i + marker.length)
    let urlEnd := match findSub [ '\n' ] rest with
                  | none => rest.length
                  | some j => j
    let url := pyStrip (rest.take urlEnd)
    if url = [] then none else some url

/-- Character class of the regex `[^\s\)]`: anything except whitespace and
a closing parenthesis. -/
def urlChar (c : Char) : Bool :=
  !(isPySpace c) && !(c = ')')

/-- The literal part of the regex `https://github\.com/[^\s\)]+`. -/
def ghUrlHead : List Char := "https://github.com/".data

/-- Greedy run of `urlChar` characters and the remaining input, as matched
by the `+` quantifier of the URL regex. -/
def spanUrl : List Char → List Char × List Char
  | [] => ([], [])
  | c :: t =>
    if urlChar c then
      let p := spanUrl t
      (c :: p.1, p.2)
    else ([], c :: t)

/-- Left-to-right non-overlapping scan of `re.findall` for the pattern
`https://github\.com/[^\s\)]+`, with fuel (one unit per scan position;
`findAllGithubUrls` supplies enough). -/
def findAllGhAux : Nat → List Char → List (List Char)
  | 0, _ => []
  | _ + 1, [] => []
  | fuel + 1, c :: t =>
    if ghUrlHead.isPrefixOf (c :: t) then
      let p := spanUrl ((c :: t).drop ghUrlHead.length)
      if p.1 = [] then findAllGhAux fuel t
      else (ghUrlHead ++ p.1) :: findAllGhAux fuel p.2
    else findAllGhAux fuel t

/-- Python `re.findall(r'https://github\.com/[^\s\)]+', content)`
(vibe_gh_sync.py line 543). -/
def findAllGithubUrls (content : List Char) : List (List Char) :=
  findAllGhAux content.length content

/-- An open issue as returned by the issue source: number, title,
nullable body, URL. -/
structure Issue where
  number : Int
  title : List Char
  body : Option (List Char)
  url : List Char
deriving DecidableEq, Repr

/-- A board task as returned by the board API: title and nullable
content (the other fields are not read by the sync loop). -/
structure Task where
  title : List Char
  content : Option (List Char)
deriving DecidableEq, Repr

/-- Python `task.get("content") or ""`. -/
def taskContent (t : Task) : List Char := t.content.getD []

/-- Insert-if-absent, the semantics of `set.add` that the sync relies on
(membership only; ordering is irrelevant). -/
def setInsert (x : List Char) (s : List (List Char)) : List (List Char) :=
  if x ∈ s then s else x :: s

/-- The two duplicate-detection lookup sets built per cycle:
`existing_urls` and `existing_titles` (vibe_gh_sync.py lines 519-520). -/
structure DedupSets where
  urls : List (List Char)
  titles : List (List Char)
deriving DecidableEq, Repr

/-- The `for url in github_urls: existing_urls.add(url.strip())` loop of
vibe_gh_sync.py lines 544-545. -/
def addGhUrls (s : DedupSets) (us : List (List Char)) : DedupSets :=
  us.foldl (fun acc u => { acc with urls := setInsert (pyStrip u) acc.urls }) s

/-- Per-task contribution to the lookup sets, mirroring vibe_gh_sync.py
lines 521-545: the trimmed title (when the title is nonempty), the
marker-extracted URL (when nonempty after stripping), and every stripped
regex-scan match. -/
def addTaskToSets (s : DedupSets) (t : Task) : DedupSets :=
  let content := taskContent t
  let s1 := if t.title ≠ [] then
              { s with titles := setInsert (pyStrip t.title) s.titles }
            else s
  let s2 := match extractMarkerUrl content with
            | some url => { s1 with urls := setInsert url s1.urls }
            | none => s1
  addGhUrls s2 (findAllGithubUrls content)

/-- The lookup sets built from one cycle's fetched tasks
(vibe_gh_sync.py lines 519-545). -/
def buildSets (tasks : List Task) : DedupSets :=
  tasks.foldl addTaskToSets ⟨[], []⟩

/-- The duplicate predicate of vibe_gh_sync.py lines 556-559:
`issue_url in existing_urls or issue_title.strip() in existing_titles`. -/
def isDuplicate (s : DedupSets) (i : Issue) : Bool :=
  decide (i.url ∈ s.urls) || decide (pyStrip i.title ∈ s.titles)

/-- Content of a task created for an issue (vibe_gh_sync.py line 553):
body, blank line, marker, URL. -/
def taskContentFor (i : Issue) : List Char :=
  i.body.getD [] ++ "\n\nOriginal Issue: ".data ++ i.url

/-- State update after a successful create (vibe_gh_sync.py
lines 569-571): the issue's URL and trimmed title join the sets. -/
def afterCreate (s : DedupSets) (i : Issue) : DedupSets :=
  ⟨setInsert i.url s.urls, setInsert (pyStrip i.title) s.titles⟩

/-- The compare-and-create loop over one cycle's issues (vibe_gh_sync.py
lines 548-571).  `createOk` is the outcome of the board's create call for
a given issue.  Returns the final lookup sets and the list of issues for
which a create was attempted, in order. -/
def processIssues (createOk : Issue → Bool) : DedupSets → List Issue → DedupSets × List Issue
  | s, [] => (s, [])
  | s, i :: rest =>
    if isDuplicate s i then processIssues createOk s rest
    else
      let s' := if createOk i then afterCreate s i else s
      let p := processIssues createOk s' rest
      (p.1, i :: p.2)

/-- Outcome of running the `gh issue list` subprocess
(vibe_gh_sync.py lines 401-404): normal exit with output already put
through `json.loads` (`none` models a `JSONDecodeError`), a non-zero exit
(`CalledProcessError`, carrying stderr), or a timeout
(`TimeoutExpired`). -/
inductive ToolResult where
  | ran (parsed : Option (List Issue))
  | exitedNonZero (stderr : List Char)
  | timedOut
deriving DecidableEq

/-- `fetch_github_issues` (vibe_gh_sync.py lines 385-413), with the
subprocess modelled as an oracle from repo and limit to a `ToolResult`.
Every arm of the Python `try/except` returns a list, so the model is a
total function: a tool failure, a timeout or unparseable output each
yield `[]`. -/
def fetch_github_issues (runTool : List Char → Nat → ToolResult)
    (repo : List Char) (limit : Nat) : List Issue :=
  match runTool repo limit with
  | .ran (some issues) => issues
  | .ran none => []
  | .exitedNonZero _ => []
  | .timedOut => []

/-- The board API's response envelope for task listing:
`{success: bool, data: [...]}`. -/
structure Envelope where
  success : Bool
  data : List Task
deriving DecidableEq

/-- Outcome of an HTTP request against the board: a response with a
status code and parsed body, a `requests.Timeout`, or another
`requests.RequestException`. -/
inductive HttpResult (α : Type) where
  | response (status : Nat) (body : α)
  | timedOut
  | requestError
deriving DecidableEq

/-- `fetch_vibe_tasks` (vibe_gh_sync.py lines 416-438) with the GET
request modelled as an oracle from API URL and project id to an
`HttpResult Envelope`: the task list on a 200 response whose envelope
says success, `[]` in every other case. -/
def fetch_vibe_tasks (httpGet : List Char → List Char → HttpResult Envelope)
    (apiUrl projectId : List Char) : List Task :=
  match httpGet apiUrl projectId with
  | .response status body =>
    if status = 200 then
      if body.success then body.data else []
    else []
  | .timedOut => []
  | .requestError => []

/-- `create_vibe_task` (vibe_gh_sync.py lines 441-459) with the POST
request modelled as an oracle from API URL, project id, title and content
to a status code (the response body is not read): `true` exactly on
status 200 or 201, `false` on any other status, on timeout and on any
other request error. -/
def create_vibe_task (httpPost : List Char → List Char → List Char → List Char → HttpResult Unit)
    (apiUrl projectId title content : List Char) : Bool :=
  match httpPost apiUrl projectId title content with
  | .response status _ => status = 200 || status = 201
  | .timedOut => false
  | .requestError => false

/-- One configured repo-to-project mapping (an entry of
`config["projects"]`). -/
structure Mapping where
  github_repo : List Char
  vibe_project_id : List Char
deriving DecidableEq

/-- The external world as seen by `run_sync`: what the issue fetch, the
task fetch and the create call return. -/
structure World where
  issuesOf : List Char → List Issue
  tasksOf : List Char → List Task
  createOk : List Char → List Char → List Char → Bool

/-- Observable steps of the sync loop, for stating trace properties. -/
inductive SyncEvent where
  | fetchIssuesEv (repo : List Char)
  | fetchTasksEv (projId : List Char)
  | createEv (projId title content : List Char) (ok : Bool)
  | sleepEv
deriving DecidableEq

/-- Recogniser for task-fetch events. -/
def isFetchTasksEv : SyncEvent → Bool
  | .fetchTasksEv _ => true
  | _ => false

/-- The create outcome for a given issue under mapping `m`: the call of
vibe_gh_sync.py line 567 with its actual arguments. -/
def createOkFor (w : World) (m : Mapping) (i : Issue) : Bool :=
  w.createOk m.vibe_project_id i.title (taskContentFor i)

/-- One mapping's pass of the sync loop body (vibe_gh_sync.py
lines 506-571): fetch the repo's issues, fetch the project's tasks, build
the lookup sets, then run the compare-and-create loop.  Emitted as an
event trace; no shutdown check happens inside a pass. -/
def mappingPass (w : World) (m : Mapping) : List SyncEvent :=
  let issues := w.issuesOf m.github_repo
  let tasks := w.tasksOf m.vibe_project_id
  let s := buildSets tasks
  SyncEvent.fetchIssuesEv m.github_repo ::
    SyncEvent.fetchTasksEv m.vibe_project_id ::
      (processIssues (createOkFor w m) s issues).2.map
        (fun i => SyncEvent.createEv m.vibe_project_id i.title (taskContentFor i)
          (createOkFor w m i))

/-- Concatenation of one pass per mapping, in configuration order. -/
def passes (w : World) : List Mapping → List SyncEvent
  | [] => []
  | m :: rest => mappingPass w m ++ passes w rest

/-- The inner `for project in ...` loop (vibe_gh_sync.py lines 502-571).
`sd k` is the value of the shutdown flag at its `k`-th read; the read
counter is threaded and returned.  The flag is read once at the top of
each mapping iteration; a set flag breaks out before the pass starts. -/
def mappingsLoop (w : World) (sd : Nat → Bool) (k : Nat) :
    List Mapping → Nat × List SyncEvent
  | [] => (k, [])
  | m :: rest =>
    if sd k then (k + 1, [])
    else
      let p := mappingsLoop w sd (k + 1) rest
      (p.1, mappingPass w m ++ p.2)

/-- The interruptible sleep (vibe_gh_sync.py lines 580-583): the interval
is decomposed into 1-second ticks, each preceded by a read of the
shutdown flag. -/
def sleepLoop (sd : Nat → Bool) (k : Nat) : Nat → Nat × List SyncEvent
  | 0 => (k, [])
  | n + 1 =>
    if sd k then (k + 1, [])
    else
      let p := sleepLoop sd (k + 1) n
      (p.1, SyncEvent.sleepEv :: p.2)

/-- The `while not shutdown_requested` loop of `run_sync`
(vibe_gh_sync.py lines 501-583), with fuel bounding the number of outer
iterations (the Python loop is unbounded unless `once` is set).  Flag
reads, in program order: the `while` condition, one per mapping
iteration, the `if not shutdown_requested` guard before the sleep, and
one per sleep tick. -/
def runSyncLoop (w : World) (sd : Nat → Bool) (once : Bool)
    (mappings : List Mapping) (interval : Nat) : Nat → Nat → Nat × List SyncEvent
  | 0, k => (k, [])
  | fuel + 1, k =>
    if sd k then (k + 1, [])
    else
      let p1 := mappingsLoop w sd (k + 1) mappings
      if once then p1
      else
        let p2 := if sd p1.1 then (p1.1 + 1, ([] : List SyncEvent))
                  else sleepLoop sd (p1.1 + 1) interval
        let p3 := runSyncLoop w sd once mappings interval fuel p2.1
        (p3.1, p1.2 ++ p2.2 ++ p3.2)

/-- Per-task contribution to the lookup sets as written in `dry_run`
(vibe_gh_sync.py lines 816-835); kept as a separate definition so that
its agreement with the live path's `addTaskToSets` is a theorem, not a
definition shared by fiat. -/
def dryAddTask (s : DedupSets) (t : Task) : DedupSets :=
  let content := taskContent t
  let s1 := if t.title ≠ [] then
              { s with titles := setInsert (pyStrip t.title) s.titles }
            else s
  let s2 := match extractMarkerUrl content with
            | some url => { s1 with urls := setInsert url s1.urls }
            | none => s1
  (findAllGithubUrls content).foldl
    (fun acc u => { acc with urls := setInsert (pyStrip u) acc.urls }) s2

/-- The lookup sets built by `dry_run` (vibe_gh_sync.py lines 813-835). -/
def dryRunSets (tasks : List Task) : DedupSets :=
  tasks.foldl dryAddTask ⟨[], []⟩

/-- The duplicate test applied by `dry_run` (vibe_gh_sync.py
lines 839-842). -/
def dryRunIsDup (tasks : List Task) (i : Issue) : Bool :=
  decide (i.url ∈ (dryRunSets tasks).urls) ||
    decide (pyStrip i.title ∈ (dryRunSets tasks).titles)

/-- The `new_issues` accumulation of `dry_run` (vibe_gh_sync.py
lines 837-844): the issues that would be created, appended in order. -/
def dryRunNewIssues (tasks : List Task) (issues : List Issue) : List Issue :=
  issues.foldl (fun acc i => if dryRunIsDup tasks i then acc else acc ++ [i]) []

/-- A concrete board task whose content carries the URL marker. -/
def sampleTask : Task :=
  ⟨"fix bug".data, some "x\n\nOriginal Issue: https://github.com/o/r/issues/5".data⟩

/-- A concrete issue that duplicates `sampleTask` by URL (not title). -/
def sampleIssueDup : Issue :=
  ⟨5, "other title".data, none, "https://github.com/o/r/issues/5".data⟩

/-- A concrete issue matching no existing task. -/
def sampleIssueNew : Issue :=
  ⟨7, "new feature".data, some "body".data, "https://github.com/o/r/issues/7".data⟩

/-- A concrete issue with the same URL as `sampleIssueNew` but another
title. -/
def sampleIssueSameUrl : Issue :=
  ⟨8, "another name".data, none, "https://github.com/o/r/issues/7".data⟩

/-- A world with no issues and no tasks anywhere, every create
succeeding. -/
def sampleWorld : World :=
  ⟨fun _ => [], fun _ => [], fun _ _ _ => true⟩

/-- First concrete mapping. -/
def mapA : Mapping := ⟨"o/r1".data, "p1".data⟩

/-- Second concrete mapping. -/
def mapB : Mapping := ⟨"o/r2".data, "p2".data⟩

example : pyStrip "  fix bug\n".data = "fix bug".data := by decide

example : extractMarkerUrl "fix bug\n\nOriginal Issue: https://github.com/o/r/issues/5".data
    = some "https://github.com/o/r/issues/5".data := by decide

example : findAllGithubUrls "see https://github.com/o/r/issues/5 and (https://github.com/a/b)".data
    = ["https://github.com/o/r/issues/5".data, "https://github.com/a/b".data] := by decide

example : isDuplicate (buildSets [⟨"fix bug".data, some "x\n\nOriginal Issue: https://github.com/o/r/issues/5".data⟩])
    ⟨5, "fix bug".data, none, "https://github.com/o/r/issues/5".data⟩ = true := by decide

/-! ### Properties of the set model -/

theorem mem_setInsert_self (x : List Char) (s : List (List Char)) : x ∈ setInsert x s := by
  unfold setInsert
  split
  next h => exact h
  next => exact List.mem_cons_self x s

theorem mem_setInsert_of_mem (x : List Char) {y : List Char} {s : List (List Char)}
    (h : y ∈ s) : y ∈ setInsert x s := by
  unfold setInsert
  split
  next => exact h
  next => exact List.mem_cons_of_mem x h

theorem nodup_setInsert (x : List Char) {s : List (List Char)} (h : s.Nodup) :
    (setInsert x s).Nodup := by
  unfold setInsert
  split
  next => exact h
  next hx => exact List.nodup_cons.mpr ⟨hx, h⟩

theorem addGhUrls_titles (us : List (List Char)) :
    ∀ s : DedupSets, (addGhUrls s us).titles = s.titles := by
  induction us with
  | nil => intro s; rfl
  | cons u rest ih =>
    intro s
    simpa only [addGhUrls, List.foldl_cons] using ih _

theorem mem_addGhUrls_of_mem (us : List (List Char)) :
    ∀ (s : DedupSets) (u : List Char), u ∈ s.urls → u ∈ (addGhUrls s us).urls := by
  induction us with
  | nil => intro s u h; exact h
  | cons v rest ih =>
    intro s u h
    simp only [addGhUrls, List.foldl_cons]
    exact ih _ u (mem_setInsert_of_mem _ h)

theorem mem_addGhUrls_self (us : List (List Char)) :
    ∀ (s : DedupSets) (v : List Char), v ∈ us → pyStrip v ∈ (addGhUrls s us).urls := by
  induction us with
  | nil => intro s v h; cases h
  | cons w rest ih =>
    intro s v h
    rcases List.mem_cons.mp h with rfl | h'
    · simp only [addGhUrls, List.foldl_cons]
      exact mem_addGhUrls_of_mem rest _ _ (mem_setInsert_self _ _)
    · simp only [addGhUrls, List.foldl_cons]
      exact ih _ v h'

theorem nodup_addGhUrls (us : List (List Char)) :
    ∀ s : DedupSets, s.urls.Nodup → (addGhUrls s us).urls.Nodup := by
  induction us with
  | nil => intro s h; exact h
  | cons v rest ih =>
    intro s h
    simp only [addGhUrls, List.foldl_cons]
    exact ih _ (nodup_setInsert _ h)

theorem addTaskToSets_urls_mono (s : DedupSets) (t : Task) {u : List Char}
    (h : u ∈ s.urls) : u ∈ (addTaskToSets s t).urls := by
  unfold addTaskToSets
  apply mem_addGhUrls_of_mem
  split
  next => split <;> exact mem_setInsert_of_mem _ h
  next => split <;> exact h

theorem addTaskToSets_titles_mono (s : DedupSets) (t : Task) {x : List Char}
    (h : x ∈ s.titles) : x ∈ (addTaskToSets s t).titles := by
  unfold addTaskToSets
  rw [addGhUrls_titles]
  split
  next => split <;> [exact mem_setInsert_of_mem _ h; exact h]
  next => split <;> [exact mem_setInsert_of_mem _ h; exact h]

theorem marker_mem_addTaskToSets (s : DedupSets) (t : Task) (url : List Char)
    (h : extractMarkerUrl (taskContent t) = some url) :
    url ∈ (addTaskToSets s t).urls := by
  unfold addTaskToSets
  apply mem_addGhUrls_of_mem
  rw [h]
  exact mem_setInsert_self _ _

theorem gh_mem_addTaskToSets (s : DedupSets) (t : Task) (u : List Char)
    (h : u ∈ findAllGithubUrls (taskContent t)) :
    pyStrip u ∈ (addTaskToSets s t).urls := by
  unfold addTaskToSets
  exact mem_addGhUrls_self _ _ _ h

theorem title_mem_addTaskToSets (s : DedupSets) (t : Task) (h : t.title ≠ []) :
    pyStrip t.title ∈ (addTaskToSets s t).titles := by
  unfold addTaskToSets
  rw [addGhUrls_titles]
  split
  next => simp only [if_pos h]; exact mem_setInsert_self _ _
  next => simp only [if_pos h]; exact mem_setInsert_self _ _

theorem nodup_addTaskToSets (s : DedupSets) (t : Task) (h : s.urls.Nodup) :
    (addTaskToSets s t).urls.Nodup := by
  unfold addTaskToSets
  apply nodup_addGhUrls
  split
  next => split <;> exact nodup_setInsert _ h
  next => split <;> exact h

theorem mem_urls_foldl (tasks : List Task) :
    ∀ (s : DedupSets) (u : List Char), u ∈ s.urls → u ∈ (tasks.foldl addTaskToSets s).urls := by
  induction tasks with
  | nil => intro s u h; exact h
  | cons a rest ih =>
    intro s u h
    simp only [List.foldl_cons]
    exact ih _ u (addTaskToSets_urls_mono s a h)

theorem mem_titles_foldl (tasks : List Task) :
    ∀ (s : DedupSets) (x : List Char), x ∈ s.titles → x ∈ (tasks.foldl addTaskToSets s).titles := by
  induction tasks with
  | nil => intro s x h; exact h
  | cons a rest ih =>
    intro s x h
    simp only [List.foldl_cons]
    exact ih _ x (addTaskToSets_titles_mono s a h)

theorem nodup_urls_foldl (tasks : List Task) :
    ∀ s : DedupSets, s.urls.Nodup → (tasks.foldl addTaskToSets s).urls.Nodup := by
  induction tasks with
  | nil => intro s h; exact h
  | cons a rest ih =>
    intro s h
    simp only [List.foldl_cons]
    exact ih _ (nodup_addTaskToSets s a h)

theorem buildSets_urls_nodup (tasks : List Task) : (buildSets tasks).urls.Nodup :=
  nodup_urls_foldl tasks ⟨[], []⟩ List.nodup_nil

theorem marker_mem_buildSets (tasks : List Task) :
    ∀ (s : DedupSets) (t : Task) (url : List Char), t ∈ tasks →
      extractMarkerUrl (taskContent t) = some url →
      url ∈ (tasks.foldl addTaskToSets s).urls := by
  induction tasks with
  | nil => intro s t url ht; cases ht
  | cons a rest ih =>
    intro s t url ht h
    simp only [List.foldl_cons]
    rcases List.mem_cons.mp ht with rfl | ht'
    · exact mem_urls_foldl rest _ _ (marker_mem_addTaskToSets s t url h)
    · exact ih _ t url ht' h

theorem gh_mem_buildSets (tasks : List Task) :
    ∀ (s : DedupSets) (t : Task) (u : List Char), t ∈ tasks →
      u ∈ findAllGithubUrls (taskContent t) →
      pyStrip u ∈ (tasks.foldl addTaskToSets s).urls := by
  induction tasks with
  | nil => intro s t u ht; cases ht
  | cons a rest ih =>
    intro s t u ht h
    simp only [List.foldl_cons]
    rcases List.mem_cons.mp ht with rfl | ht'
    · exact mem_urls_foldl rest _ _ (gh_mem_addTaskToSets s t u h)
    · exact ih _ t u ht' h

theorem dropWhile_eq_self_of_false {p : Char → Bool} (l : List Char)
    (h : ∀ c ∈ l, p c = false) : l.dropWhile p = l := by
  cases l with
  | nil => rfl
  | cons a t =>
    rw [List.dropWhile_cons, h a (List.mem_cons_self a t)]
    simp

theorem pyStrip_eq_self {l : List Char} (h : ∀ c ∈ l, isPySpace c = false) :
    pyStrip l = l := by
  unfold pyStrip
  rw [dropWhile_eq_self_of_false l h,
    dropWhile_eq_self_of_false l.reverse (fun c hc => h c (List.mem_reverse.mp hc)),
    List.reverse_reverse]

theorem count_eq_one_of_nodup_mem {x : List Char} :
    ∀ {s : List (List Char)}, s.Nodup → x ∈ s → List.count x s = 1 := by
  intro s
  induction s with
  | nil => intro _ h; cases h
  | cons a t ih =>
    intro hnd hm
    rcases List.mem_cons.mp hm with rfl | hm'
    · rw [List.count_cons_self, List.count_eq_zero.mpr (List.nodup_cons.mp hnd).1]
    · have hne : x ≠ a := fun e => (List.nodup_cons.mp hnd).1 (e ▸ hm')
      rw [List.count_cons_of_ne hne]
      exact ih (List.nodup_cons.mp hnd).2 hm'

theorem urlChar_not_space {c : Char} (h : urlChar c = true) : isPySpace c = false := by
  unfold urlChar at h
  simp only [Bool.and_eq_true, Bool.not_eq_true'] at h
  exact h.1

theorem spanUrl_fst_urlChar : ∀ (l : List Char) (c : Char),
    c ∈ (spanUrl l).1 → urlChar c = true := by
  intro l
  induction l with
  | nil => intro c hc; cases hc
  | cons a t ih =>
    intro c hc
    by_cases ha : urlChar a = true
    · simp only [spanUrl, ha, if_true] at hc
      rcases List.mem_cons.mp hc with rfl | hc'
      · exact ha
      · exact ih c hc'
    · simp only [spanUrl, ha, if_false] at hc
      cases hc

theorem ghUrlHead_no_space : ∀ c ∈ ghUrlHead, isPySpace c = false := by decide

theorem findAllGh_no_space : ∀ (fuel : Nat) (l u : List Char),
    u ∈ findAllGhAux fuel l → ∀ c ∈ u, isPySpace c = false := by
  intro fuel
  induction fuel with
  | zero => intro l u hu; cases hu
  | succ n ih =>
    intro l u hu
    cases l with
    | nil => cases hu
    | cons a t =>
      by_cases hp : ghUrlHead.isPrefixOf (a :: t) = true
      · by_cases hr : (spanUrl ((a :: t).drop ghUrlHead.length)).1 = []
        · rw [findAllGhAux] at hu
          simp only [hp, if_true, hr] at hu
          exact ih t u hu
        · rw [findAllGhAux] at hu
          simp only [hp, if_true, hr, if_false] at hu
          rcases List.mem_cons.mp hu with rfl | hu'
          · intro c hc
            rcases List.mem_append.mp hc with hc1 | hc2
            · exact ghUrlHead_no_space c hc1
            · exact urlChar_not_space (spanUrl_fst_urlChar _ c hc2)
          · exact ih _ u hu'
      · rw [findAllGhAux] at hu
        simp only [hp, if_false] at hu
        exact ih t u hu

theorem pyStrip_findAll (content u : List Char) (h : u ∈ findAllGithubUrls content) :
    pyStrip u = u :=
  pyStrip_eq_self (findAllGh_no_space content.length content u h)

theorem isDuplicate_true_iff (s : DedupSets) (i : Issue) :
    isDuplicate s i = true ↔ i.url ∈ s.urls ∨ pyStrip i.title ∈ s.titles := by
  simp [isDuplicate]

theorem isDuplicate_afterCreate (s : DedupSets) (j i : Issue)
    (h : isDuplicate s i = true) : isDuplicate (afterCreate s j) i = true := by
  rw [isDuplicate_true_iff] at h ⊢
  rcases h with h | h
  · exact Or.inl (mem_setInsert_of_mem _ h)
  · exact Or.inr (mem_setInsert_of_mem _ h)

theorem processIssues_cons_dup (createOk : Issue → Bool) (s : DedupSets) (i : Issue)
    (rest : List Issue) (h : isDuplicate s i = true) :
    processIssues createOk s (i :: rest) = processIssues createOk s rest := by
  simp [processIssues, h]

theorem processIssues_cons_new (createOk : Issue → Bool) (s : DedupSets) (i : Issue)
    (rest : List Issue) (h : isDuplicate s i = false) :
    processIssues createOk s (i :: rest) =
      ((processIssues createOk (if createOk i then afterCreate s i else s) rest).1,
        i :: (processIssues createOk (if createOk i then afterCreate s i else s) rest).2) := by
  simp [processIssues, h]

theorem not_created_of_duplicate (createOk : Issue → Bool) (i : Issue) :
    ∀ (l : List Issue) (s : DedupSets), isDuplicate s i = true →
      i ∉ (processIssues createOk s l).2 := by
  intro l
  induction l with
  | nil => intro s _ hmem; simp [processIssues] at hmem
  | cons j rest ih =>
    intro s h
    by_cases hj : isDuplicate s j = true
    · rw [processIssues_cons_dup createOk s j rest hj]
      exact ih s h
    · rw [processIssues_cons_new createOk s j rest (Bool.not_eq_true _ |>.mp hj)]
      intro hmem
      rcases List.mem_cons.mp hmem with rfl | hmem'
      · exact hj h
      · refine ih _ ?_ hmem'
        by_cases hc : createOk j = true
        · rw [if_pos hc]
          exact isDuplicate_afterCreate s j i h
        · rw [if_neg hc]
          exact h

/-- C1: for every existing-task list and every candidate issue, the
duplicate detector classifies the issue as a duplicate exactly when the
issue's URL is in the URL set built from the tasks or its trimmed title
is in the title set of trimmed task titles, and a duplicate issue never
has a create attempted for it by the compare-and-create loop. -/
theorem duplicate_detector_spec (tasks : List Task) (issues : List Issue)
    (createOk : Issue → Bool) (i : Issue) :
    (isDuplicate (buildSets tasks) i = true ↔
        i.url ∈ (buildSets tasks).urls ∨ pyStrip i.title ∈ (buildSets tasks).titles) ∧
    (isDuplicate (buildSets tasks) i = true →
        i ∉ (processIssues createOk (buildSets tasks) issues).2) :=
  ⟨isDuplicate_true_iff _ _,
    fun h => not_created_of_duplicate createOk i issues (buildSets tasks) h⟩

/-- Witness for C1 at a concrete task list and issue: the sample issue
shares `sampleTask`'s embedded URL, is classified duplicate, and no
create is attempted for it. -/
theorem duplicate_detector_spec_witness :
    isDuplicate (buildSets [sampleTask]) sampleIssueDup = true ∧
    sampleIssueDup ∉
      (processIssues (fun _ => true) (buildSets [sampleTask]) [sampleIssueDup]).2 :=
  ⟨by decide,
    (duplicate_detector_spec [sampleTask] [sampleIssueDup] (fun _ => true)
      sampleIssueDup).2 (by decide)⟩

/-- C2: for every task in the fetched list, a URL extracted after the
marker string (text up to the next line break, stripped, nonempty) is in
the URL set the detector builds, every regex-scan match for a
github.com URL in the task's content is in the same set, and each such
URL occurs in the set exactly once. -/
theorem url_set_extraction (tasks : List Task) (t : Task) (ht : t ∈ tasks) :
    (∀ url : List Char, extractMarkerUrl (taskContent t) = some url →
        url ∈ (buildSets tasks).urls ∧ List.count url (buildSets tasks).urls = 1) ∧
    (∀ u : List Char, u ∈ findAllGithubUrls (taskContent t) →
        u ∈ (buildSets tasks).urls ∧ List.count u (buildSets tasks).urls = 1) := by
  constructor
  · intro url h
    have hmem : url ∈ (buildSets tasks).urls :=
      marker_mem_buildSets tasks ⟨[], []⟩ t url ht h
    exact ⟨hmem, count_eq_one_of_nodup_mem (buildSets_urls_nodup tasks) hmem⟩
  · intro u hu
    have hmem : u ∈ (buildSets tasks).urls := by
      have hg := gh_mem_buildSets tasks ⟨[], []⟩ t u ht hu
      rwa [pyStrip_findAll (taskContent t) u hu] at hg
    exact ⟨hmem, count_eq_one_of_nodup_mem (buildSets_urls_nodup tasks) hmem⟩

/-- Witness for C2: the marker URL of `sampleTask` (which the regex scan
also finds) lands in the URL set exactly once. -/
theorem url_set_extraction_witness :
    ("https://github.com/o/r/issues/5".data ∈ (buildSets [sampleTask]).urls ∧
      List.count "https://github.com/o/r/issues/5".data (buildSets [sampleTask]).urls = 1) ∧
    ("https://github.com/o/r/issues/5".data ∈ (buildSets [sampleTask]).urls ∧
      List.count "https://github.com/o/r/issues/5".data (buildSets [sampleTask]).urls = 1) :=
  ⟨(url_set_extraction [sampleTask] sampleTask (by decide)).1
      "https://github.com/o/r/issues/5".data (by decide),
    (url_set_extraction [sampleTask] sampleTask (by decide)).2
      "https://github.com/o/r/issues/5".data (by decide)⟩

theorem filter_fetchTasks_map_create (pid : List Char) (f g : Issue → List Char)
    (ok : Issue → Bool) (l : List Issue) :
    (l.map (fun i => SyncEvent.createEv pid (f i) (g i) (ok i))).filter
      isFetchTasksEv = [] := by
  induction l with
  | nil => rfl
  | cons a t ih => simp [isFetchTasksEv, ih]

theorem mappingPass_filter_fetchTasks (w : World) (m : Mapping) :
    (mappingPass w m).filter isFetchTasksEv =
      [SyncEvent.fetchTasksEv m.vibe_project_id] := by
  unfold mappingPass
  simp [isFetchTasksEv, filter_fetchTasks_map_create]

/-- C3: in one cycle, once a task is successfully created for a
non-duplicate issue, the issue's URL and trimmed title are in the updated
sets, so every later issue in the cycle sharing its URL or trimmed title
is classified duplicate and gets no create attempt; and a mapping's pass
fetches the task list exactly once (no second fetch). -/
theorem create_updates_sets_in_cycle (w : World) (m : Mapping) (createOk : Issue → Bool)
    (s : DedupSets) (i j : Issue) (l2 : List Issue)
    (hnd : isDuplicate s i = false) (hok : createOk i = true)
    (_hj : j ∈ l2) (hmatch : j.url = i.url ∨ pyStrip j.title = pyStrip i.title) :
    processIssues createOk s (i :: l2) =
      ((processIssues createOk (afterCreate s i) l2).1,
        i :: (processIssues createOk (afterCreate s i) l2).2) ∧
    isDuplicate (afterCreate s i) j = true ∧
    j ∉ (processIssues createOk (afterCreate s i) l2).2 ∧
    (mappingPass w m).filter isFetchTasksEv =
      [SyncEvent.fetchTasksEv m.vibe_project_id] := by
  have hdup : isDuplicate (afterCreate s i) j = true := by
    rw [isDuplicate_true_iff]
    rcases hmatch with h | h
    · exact Or.inl (h ▸ mem_setInsert_self i.url s.urls)
    · exact Or.inr (h ▸ mem_setInsert_self (pyStrip i.title) s.titles)
  refine ⟨?_, hdup, not_created_of_duplicate createOk j l2 (afterCreate s i) hdup,
    mappingPass_filter_fetchTasks w m⟩
  rw [processIssues_cons_new createOk s i l2 hnd, if_pos hok]

/-- Witness for C3: after successfully creating the sample issue from an
empty board, an issue with the same URL is a duplicate and is not
created. -/
theorem create_updates_sets_in_cycle_witness :
    isDuplicate (afterCreate (buildSets []) sampleIssueNew) sampleIssueSameUrl = true ∧
    sampleIssueSameUrl ∉
      (processIssues (fun _ => true) (afterCreate (buildSets []) sampleIssueNew)
        [sampleIssueSameUrl]).2 :=
  ⟨(create_updates_sets_in_cycle sampleWorld mapA (fun _ => true) (buildSets [])
      sampleIssueNew sampleIssueSameUrl [sampleIssueSameUrl]
      (by decide) rfl (by decide) (Or.inl rfl)).2.1,
    (create_updates_sets_in_cycle sampleWorld mapA (fun _ => true) (buildSets [])
      sampleIssueNew sampleIssueSameUrl [sampleIssueSameUrl]
      (by decide) rfl (by decide) (Or.inl rfl)).2.2.1⟩

/-- C4: `fetch_github_issues` returns the empty list when the external
tool fails, when it times out, and when its output does not parse; on a
successful run with parseable output it returns the parsed issues, so no
case escapes to the caller. -/
theorem fetch_github_issues_error_handling (runTool : List Char → Nat → ToolResult)
    (repo : List Char) (limit : Nat) :
    (∀ e, runTool repo limit = ToolResult.exitedNonZero e →
        fetch_github_issues runTool repo limit = []) ∧
    (runTool repo limit = ToolResult.timedOut →
        fetch_github_issues runTool repo limit = []) ∧
    (runTool repo limit = ToolResult.ran none →
        fetch_github_issues runTool repo limit = []) ∧
    (∀ issues, runTool repo limit = ToolResult.ran (some issues) →
        fetch_github_issues runTool repo limit = issues) := by
  refine ⟨fun e h => ?_, fun h => ?_, fun h => ?_, fun issues h => ?_⟩ <;>
    simp [fetch_github_issues, h]

/-- Witness for C4 at the three failure shapes. -/
theorem fetch_github_issues_error_handling_witness :
    fetch_github_issues (fun _ _ => ToolResult.exitedNonZero "boom".data) "o/r".data 100 = [] ∧
    fetch_github_issues (fun _ _ => ToolResult.timedOut) "o/r".data 100 = [] ∧
    fetch_github_issues (fun _ _ => ToolResult.ran none) "o/r".data 100 = [] :=
  ⟨(fetch_github_issues_error_handling (fun _ _ => ToolResult.exitedNonZero "boom".data)
      "o/r".data 100).1 "boom".data rfl,
    (fetch_github_issues_error_handling (fun _ _ => ToolResult.timedOut)
      "o/r".data 100).2.1 rfl,
    (fetch_github_issues_error_handling (fun _ _ => ToolResult.ran none)
      "o/r".data 100).2.2.1 rfl⟩

/-- C5: `fetch_vibe_tasks` returns the empty list on any non-200 status,
on a success=false envelope, on timeout and on any other request error;
in particular an HTTP 500 yields the empty list, and against that empty
task list the duplicate detector classifies every issue as
non-duplicate. -/
theorem fetch_vibe_tasks_error_handling
    (httpGet : List Char → List Char → HttpResult Envelope)
    (apiUrl projectId : List Char) :
    (∀ status body, httpGet apiUrl projectId = HttpResult.response status body →
        status ≠ 200 → fetch_vibe_tasks httpGet apiUrl projectId = []) ∧
    (∀ status body, httpGet apiUrl projectId = HttpResult.response status body →
        body.success = false → fetch_vibe_tasks httpGet apiUrl projectId = []) ∧
    (httpGet apiUrl projectId = HttpResult.timedOut →
        fetch_vibe_tasks httpGet apiUrl projectId = []) ∧
    (httpGet apiUrl projectId = HttpResult.requestError →
        fetch_vibe_tasks httpGet apiUrl projectId = []) ∧
    (∀ body, httpGet apiUrl projectId = HttpResult.response 500 body →
        fetch_vibe_tasks httpGet apiUrl projectId = [] ∧
        ∀ i : Issue,
          isDuplicate (buildSets (fetch_vibe_tasks httpGet apiUrl projectId)) i = false) := by
  refine ⟨fun status body h hs => ?_, fun status body h hs => ?_, fun h => ?_,
    fun h => ?_, fun body h => ?_⟩
  · simp [fetch_vibe_tasks, h, hs]
  · rcases Nat.decEq status 200 with hne | rfl
    · simp [fetch_vibe_tasks, h, hne]
    · simp [fetch_vibe_tasks, h, hs]
  · simp [fetch_vibe_tasks, h]
  · simp [fetch_vibe_tasks, h]
  · have hempty : fetch_vibe_tasks httpGet apiUrl projectId = [] := by
      simp [fetch_vibe_tasks, h]
    refine ⟨hempty, fun i => ?_⟩
    rw [hempty]
    simp [isDuplicate, buildSets]

/-- Witness for C5: an HTTP 500 response produces an empty task list and
the sample issue is then non-duplicate. -/
theorem fetch_vibe_tasks_error_handling_witness :
    fetch_vibe_tasks (fun _ _ => HttpResult.response 500 ⟨false, []⟩) "u".data "p".data = [] ∧
    isDuplicate
      (buildSets (fetch_vibe_tasks (fun _ _ => HttpResult.response 500 ⟨false, []⟩)
        "u".data "p".data)) sampleIssueNew = false :=
  ⟨((fetch_vibe_tasks_error_handling (fun _ _ => HttpResult.response 500 ⟨false, []⟩)
      "u".data "p".data).2.2.2.2 ⟨false, []⟩ rfl).1,
    ((fetch_vibe_tasks_error_handling (fun _ _ => HttpResult.response 500 ⟨false, []⟩)
      "u".data "p".data).2.2.2.2 ⟨false, []⟩ rfl).2 sampleIssueNew⟩

/-- C6: `create_vibe_task` reports success exactly when the POST yields a
response with status 200 or 201; timeouts and other request errors are
swallowed into a `false` return. -/
theorem create_vibe_task_success_iff
    (httpPost : List Char → List Char → List Char → List Char → HttpResult Unit)
    (apiUrl projectId title content : List Char) :
    (create_vibe_task httpPost apiUrl projectId title content = true ↔
      ∃ status, httpPost apiUrl projectId title content = HttpResult.response status () ∧
        (status = 200 ∨ status = 201)) ∧
    (httpPost apiUrl projectId title content = HttpResult.timedOut →
        create_vibe_task httpPost apiUrl projectId title content = false) ∧
    (httpPost apiUrl projectId title content = HttpResult.requestError →
        create_vibe_task httpPost apiUrl projectId title content = false) := by
  refine ⟨?_, fun h => by simp [create_vibe_task, h], fun h => by simp [create_vibe_task, h]⟩
  constructor
  · intro h
    unfold create_vibe_task at h
    cases hr : httpPost apiUrl projectId title content with
    | response status u =>
      rw [hr] at h
      cases u
      refine ⟨status, rfl, ?_⟩
      simpa using h
    | timedOut => rw [hr] at h; cases h
    | requestError => rw [hr] at h; cases h
  · rintro ⟨status, heq, hs⟩
    unfold create_vibe_task
    rw [heq]
    rcases hs with rfl | rfl <;> simp

/-- Witness for C6: a 201 response reports success, a timeout reports
failure. -/
theorem create_vibe_task_success_iff_witness :
    create_vibe_task (fun _ _ _ _ => HttpResult.response 201 ()) "u".data "p".data
      "t".data "c".data = true ∧
    create_vibe_task (fun _ _ _ _ => HttpResult.timedOut) "u".data "p".data
      "t".data "c".data = false :=
  ⟨(create_vibe_task_success_iff (fun _ _ _ _ => HttpResult.response 201 ())
      "u".data "p".data "t".data "c".data).1.mpr ⟨201, rfl, Or.inr rfl⟩,
    (create_vibe_task_success_iff (fun _ _ _ _ => HttpResult.timedOut)
      "u".data "p".data "t".data "c".data).2.1 rfl⟩

theorem sleepEv_not_mem_mappingPass (w : World) (m : Mapping) :
    SyncEvent.sleepEv ∉ mappingPass w m := by
  simp [mappingPass]

theorem sleepEv_not_mem_passes (w : World) :
    ∀ ms : List Mapping, SyncEvent.sleepEv ∉ passes w ms := by
  intro ms
  induction ms with
  | nil => simp [passes]
  | cons m rest ih =>
    simp [passes, List.mem_append, sleepEv_not_mem_mappingPass w m, ih]

theorem mappingsLoop_events_no_shutdown (w : World) (sd : Nat → Bool)
    (hsd : ∀ n, sd n = false) :
    ∀ (ms : List Mapping) (k : Nat), (mappingsLoop w sd k ms).2 = passes w ms := by
  intro ms
  induction ms with
  | nil => intro k; rfl
  | cons m rest ih =>
    intro k
    simp [mappingsLoop, hsd k, passes, ih (k + 1)]

/-- C7: with run-once set and the shutdown flag never raised, the sync
loop emits exactly one pass per configured mapping, in configuration
order, and no sleep tick. -/
theorem run_once_single_pass (w : World) (sd : Nat → Bool) (ms : List Mapping)
    (interval fuel k : Nat) (hsd : ∀ n, sd n = false) :
    (runSyncLoop w sd true ms interval (fuel + 1) k).2 = passes w ms ∧
    SyncEvent.sleepEv ∉ (runSyncLoop w sd true ms interval (fuel + 1) k).2 := by
  have hev : (runSyncLoop w sd true ms interval (fuel + 1) k).2 = passes w ms := by
    rw [runSyncLoop]
    simp [hsd k, mappingsLoop_events_no_shutdown w sd hsd ms (k + 1)]
  exact ⟨hev, hev ▸ sleepEv_not_mem_passes w ms⟩

/-- Witness for C7, the spec's scenario: two mappings with zero issues
each give exactly two passes (fetch issues then fetch tasks per
mapping) and no sleep. -/
theorem run_once_single_pass_witness :
    (runSyncLoop sampleWorld (fun _ => false) true [mapA, mapB] 60 1 0).2 =
      passes sampleWorld [mapA, mapB] ∧
    SyncEvent.sleepEv ∉ (runSyncLoop sampleWorld (fun _ => false) true [mapA, mapB] 60 1 0).2 ∧
    passes sampleWorld [mapA, mapB] =
      [SyncEvent.fetchIssuesEv "o/r1".data, SyncEvent.fetchTasksEv "p1".data,
        SyncEvent.fetchIssuesEv "o/r2".data, SyncEvent.fetchTasksEv "p2".data] :=
  ⟨(run_once_single_pass sampleWorld (fun _ => false) [mapA, mapB] 60 0 0 (fun _ => rfl)).1,
    (run_once_single_pass sampleWorld (fun _ => false) [mapA, mapB] 60 0 0 (fun _ => rfl)).2,
    by decide⟩

theorem sd_stays (sd : Nat → Bool) (hmono : ∀ n, sd n = true → sd (n + 1) = true)
    {k k' : Nat} (hk : sd k = true) (hle : k ≤ k') : sd k' = true := by
  induction k', hle using Nat.le_induction with
  | base => exact hk
  | succ n _ ih => exact hmono n ih

/-- C8: the loop reads the shutdown flag between mappings and between
sleep ticks.  With a monotone flag (once set it stays set), after any
read index at which the flag is set, the mapping loop, the sleep loop and
the whole sync loop emit nothing — no further mapping is started and no
further sleep second begins; and whenever the flag stays down across a
sleep window, the interval is emitted as exactly `n` one-second ticks,
each preceded by its own flag read. -/
theorem shutdown_flag_checks (w : World) (sd : Nat → Bool) (once : Bool)
    (ms : List Mapping) (interval : Nat)
    (hmono : ∀ n, sd n = true → sd (n + 1) = true)
    (k k' : Nat) (hk : sd k = true) (hle : k ≤ k') :
    (mappingsLoop w sd k' ms).2 = [] ∧
    (∀ n, (sleepLoop sd k' n).2 = []) ∧
    (∀ fuel, (runSyncLoop w sd once ms interval fuel k').2 = []) ∧
    (∀ (sd2 : Nat → Bool) (q n : Nat), (∀ j, j < n → sd2 (q + j) = false) →
        (sleepLoop sd2 q n).2 = List.replicate n SyncEvent.sleepEv) := by
  have hk' : sd k' = true := sd_stays sd hmono hk hle
  refine ⟨?_, ?_, ?_, ?_⟩
  · cases ms <;> simp [mappingsLoop, hk']
  · intro n; cases n <;> simp [sleepLoop, hk']
  · intro fuel; cases fuel <;> simp [runSyncLoop, hk']
  · intro sd2 q n
    induction n generalizing q with
    | zero => intro _; rfl
    | succ m ih =>
      intro hq
      have h0 : sd2 q = false := by
        have := hq 0 (Nat.succ_pos m)
        simpa using this
      have hrest : (sleepLoop sd2 (q + 1) m).2 = List.replicate m SyncEvent.sleepEv := by
        refine ih (q + 1) (fun j hj => ?_)
        have h := hq (j + 1) (Nat.succ_lt_succ hj)
        rwa [show q + (j + 1) = q + 1 + j by omega] at h
      simp [sleepLoop, h0, hrest, List.replicate_succ]

/-- Witness for C8: with the flag set from the start nothing is emitted,
and with the flag down a 3-second interval gives exactly three ticks. -/
theorem shutdown_flag_checks_witness :
    (mappingsLoop sampleWorld (fun _ => true) 0 [mapA, mapB]).2 = [] ∧
    (sleepLoop (fun _ => true) 0 60).2 = [] ∧
    (runSyncLoop sampleWorld (fun _ => true) false [mapA, mapB] 60 5 0).2 = [] ∧
    (sleepLoop (fun _ => false) 0 3).2 = List.replicate 3 SyncEvent.sleepEv := by
  have h := shutdown_flag_checks sampleWorld (fun _ => true) false [mapA, mapB] 60
    (fun _ hn => hn) 0 0 rfl (Nat.le_refl 0)
  exact ⟨h.1, h.2.1 60, h.2.2.1 5, h.2.2.2 (fun _ => false) 0 3 (fun _ _ => rfl)⟩

/-- C9: when a create fails for a non-duplicate issue, that iteration
leaves the lookup sets unchanged — processing the remaining issues
continues from the same state, with the failed issue merely recorded as
attempted — so a later issue sharing the failed issue's URL or trimmed
title that was non-duplicate ("still" non-duplicate) gets its own create
attempted. -/
theorem failed_create_leaves_sets (createOk : Issue → Bool) (s : DedupSets)
    (i j : Issue) (l2 : List Issue)
    (hnd : isDuplicate s i = false) (hfail : createOk i = false)
    (_hmatch : j.url = i.url ∨ pyStrip j.title = pyStrip i.title)
    (hjnd : isDuplicate s j = false) :
    processIssues createOk s (i :: l2) =
      ((processIssues createOk s l2).1, i :: (processIssues createOk s l2).2) ∧
    j ∈ (processIssues createOk s (i :: j :: l2)).2 := by
  have hfail' : ¬(createOk i = true) := by simp [hfail]
  have hstep : ∀ l : List Issue, processIssues createOk s (i :: l) =
      ((processIssues createOk s l).1, i :: (processIssues createOk s l).2) := by
    intro l
    rw [processIssues_cons_new createOk s i l hnd, if_neg hfail']
  refine ⟨hstep l2, ?_⟩
  rw [hstep (j :: l2)]
  rw [processIssues_cons_new createOk s j l2 hjnd]
  exact List.mem_cons_of_mem i (List.mem_cons_self j _)

/-- Witness for C9: after a failed create for the sample issue from an
empty board, an issue with the same URL is still attempted. -/
theorem failed_create_leaves_sets_witness :
    processIssues (fun _ => false) (buildSets []) [sampleIssueNew] =
      ((processIssues (fun _ => false) (buildSets []) []).1,
        sampleIssueNew :: (processIssues (fun _ => false) (buildSets []) []).2) ∧
    sampleIssueSameUrl ∈
      (processIssues (fun _ => false) (buildSets [])
        [sampleIssueNew, sampleIssueSameUrl]).2 :=
  failed_create_leaves_sets (fun _ => false) (buildSets []) sampleIssueNew
    sampleIssueSameUrl [] (by decide) rfl (Or.inl rfl) (by decide)

/-- C10: the duplicate classification of `dry_run` coincides with the one
`run_sync` computes before any creation: the two builds of the lookup
sets agree, the two duplicate predicates agree on every issue, and the
issues `dry_run` reports as "would create" are exactly the
non-duplicates, in order. -/
theorem dry_run_matches_sync (tasks : List Task) (issues : List Issue) :
    dryRunSets tasks = buildSets tasks ∧
    (∀ i : Issue, dryRunIsDup tasks i = isDuplicate (buildSets tasks) i) ∧
    dryRunNewIssues tasks issues =
      issues.filter (fun i => !isDuplicate (buildSets tasks) i) := by
  have hadd : dryAddTask = addTaskToSets := by
    funext s t
    rfl
  have hsets : dryRunSets tasks = buildSets tasks := by
    unfold dryRunSets buildSets
    rw [hadd]
  have hdup : ∀ i : Issue, dryRunIsDup tasks i = isDuplicate (buildSets tasks) i := by
    intro i
    unfold dryRunIsDup isDuplicate
    rw [hsets]
  refine ⟨hsets, hdup, ?_⟩
  have hfold : ∀ (l acc : List Issue),
      l.foldl (fun acc i => if dryRunIsDup tasks i then acc else acc ++ [i]) acc =
        acc ++ l.filter (fun i => !dryRunIsDup tasks i) := by
    intro l
    induction l with
    | nil => intro acc; simp
    | cons a t ih =>
      intro acc
      by_cases ha : dryRunIsDup tasks a = true
      · simp [List.foldl_cons, ha, ih, List.filter_cons]
      · have ha' : dryRunIsDup tasks a = false := by
          simpa using ha
        simp [List.foldl_cons, ha', ih, List.filter_cons]
  have hfun : (fun i => !dryRunIsDup tasks i) =
      (fun i => !isDuplicate (buildSets tasks) i) := by
    funext i
    rw [hdup i]
  unfold dryRunNewIssues
  rw [hfold issues [], hfun]
  simp

end VibeSync
